import Mathlib

/-!
Verification of the WebSocket/order-book core of the `ccxt` async `Exchange`
class (`python/ccxt/async_support/base/exchange.py`), shallowly embedded in
Lean 4.  Pure control flow is translated from the Python source; the
collaborator classes that live in other modules (`FastClient`, `Future`,
`OrderBook`) are modelled from the specification where their behaviour is
needed, with a doc comment saying so.  Definitions come first, then the
theorems about them.
-/

namespace Ccxt

abbrev Symbol := String
abbrev Url := String
abbrev MessageHash := String
abbrev SubKey := String

/-- Errors of the ccxt taxonomy (all subclasses of ccxt `BaseError`) that the
embedded code can produce, each carrying its message string. -/
inductive CcxtError where
  | exchangeError (msg : String)
  | exchangeNotAvailable (msg : String)
  | requestTimeout (msg : String)
  | notSupported (msg : String)
deriving DecidableEq, Repr

/-- Python-level exceptions relevant to the transport layer of `fetch`.
`gaierror` is `socket.gaierror` (DNS resolution failure); the two timeout
constructors are `concurrent.futures.TimeoutError` and
`asyncio.TimeoutError`; `clientConnectionErr` is
`aiohttp.ClientConnectionError`; `clientPayloadErr` stands for any other
subclass of `aiohttp.ClientError`; `otherErr` is any exception outside those
hierarchies. -/
inductive PyExc where
  | gaierror
  | concurrentTimeoutErr
  | asyncioTimeoutErr
  | clientConnectionErr
  | clientPayloadErr
  | otherErr
deriving DecidableEq, Repr

/-- Python `isinstance(e, socket.gaierror)`. -/
def isGaierror : PyExc → Bool
  | .gaierror => true
  | _ => false

/-- Python `isinstance(e, (concurrent.futures.TimeoutError, asyncio.TimeoutError))`. -/
def isTimeoutExc : PyExc → Bool
  | .concurrentTimeoutErr => true
  | .asyncioTimeoutErr => true
  | _ => false

/-- Python `isinstance(e, aiohttp.ClientConnectionError)`. -/
def isClientConnectionError : PyExc → Bool
  | .clientConnectionErr => true
  | _ => false

/-- Python `isinstance(e, aiohttp.ClientError)`: `ClientConnectionError` is a
subclass of `ClientError`, so it also satisfies this check. -/
def isClientError : PyExc → Bool
  | .clientConnectionErr => true
  | .clientPayloadErr => true
  | _ => false

/-- The ordered `except` chain of `Exchange.fetch` (exchange.py lines
211-225): clauses are tried in source order, each with an `isinstance` test;
`details` is the id, method and url joined by spaces.  Returns `some err` when a
clause catches the exception and raises the mapped ccxt error, `none` when
the exception propagates unmapped. -/
def fetch_except_chain (id method url : String) (e : PyExc) : Option CcxtError :=
  let details := id ++ " " ++ method ++ " " ++ url
  if isGaierror e then some (.exchangeNotAvailable details)
  else if isTimeoutExc e then some (.requestTimeout details)
  else if isClientConnectionError e then some (.exchangeNotAvailable details)
  else if isClientError e then some (.exchangeError details)
  else none

/-- `Exchange.fetch` restricted to its transport behaviour: the request body
either yields a response text or raises a Python exception, which the
`except` chain maps to a ccxt error (`Sum.inr`) or re-raises (`Sum.inl`). -/
def fetch (id method url : String) (transport : Except PyExc String) :
    Except (Sum PyExc CcxtError) String :=
  match transport with
  | .ok body => .ok body
  | .error e =>
    match fetch_except_chain id method url e with
    | some ce => .error (.inr ce)
    | none => .error (.inl e)

/-- A REST fetch whose transport fails with exception `e` raises the ccxt
error `err`. -/
def fetchRaises (id method url : String) (e : PyExc) (err : CcxtError) : Prop :=
  fetch id method url (.error e) = .error (.inr err)

/-! ## Association lists standing for Python dicts -/

/-- Python `d.get(a)` / `a in d`: first-occurrence lookup in an association
list (dict keys are unique, so first occurrence is the only one). -/
def alookup {α γ : Type} [DecidableEq α] : List (α × γ) → α → Option γ
  | [], _ => none
  | (k, v) :: rest, a => if k = a then some v else alookup rest a

/-- Python `d[a] = v`: replace the binding of `a` if present, else append. -/
def aset {α γ : Type} [DecidableEq α] : List (α × γ) → α → γ → List (α × γ)
  | [], a, v => [(a, v)]
  | (k, w) :: rest, a, v =>
    if k = a then (a, v) :: rest else (k, w) :: aset rest a v

/-- Python `del d[a]` on a dict known to contain `a`: drop the binding. -/
def aremove {α γ : Type} [DecidableEq α] (l : List (α × γ)) (a : α) :
    List (α × γ) :=
  l.filter (fun p => p.1 ≠ a)

/-! ## Subscription router: `watch` (exchange.py lines 385-424)

`FastClient` and `Future` live outside the given source file; their
behaviour (`future(messageHash)`, single-resolution reject, rejection of all
pending futures when the connect attempt fails, `send` raising
`ConnectionError` on a dead connection) is modelled from the specification,
sections 4.2 and 4.3. -/

/-- Status of one Future registered on the connection.  Only rejection
matters for the `watch` claims; the message string identifies the failure. -/
inductive FutStatus where
  | pending
  | rejected (msg : String)
deriving DecidableEq, Repr

/-- The value stored by `client.subscriptions[subscribe_hash] = subscription
or True`: the descriptor of the caller when one was provided (descriptors are
truthy objects), else the bare `True` marker. -/
inductive SubVal where
  | marker
  | descriptor (d : String)
deriving DecidableEq, Repr

/-- State of the single connection `watch` operates on: the `futures` dict
(message hash to future id), the status of every created future, the fresh
future counter, the `subscriptions` dict (whose key may be Python `None`),
and the messages actually written to the transport. -/
structure WatchState where
  futures : List (MessageHash × Nat)
  futStates : List (Nat × FutStatus)
  nextFut : Nat
  subscriptions : List (Option SubKey × SubVal)
  sent : List String
deriving DecidableEq, Repr

/-- Outcome of the connection open and of `client.send` for one `watch`
flow: `connectFailed = some m` means the connect attempt fails with `m`;
`sendFails = some m` means `client.send` raises `ConnectionError m` even on
an open connection. -/
structure WatchEnv where
  connectFailed : Option String
  sendFails : Option String
deriving DecidableEq, Repr

/-- Modelled from the spec: `future(messageHash)` of the Stream Connection
"returns the existing pending Future for that hash or creates one". -/
def client_future (st : WatchState) (hash : MessageHash) : Nat × WatchState :=
  match alookup st.futures hash with
  | some fid => (fid, st)
  | none =>
    (st.nextFut,
      { st with
        futures := aset st.futures hash st.nextFut
        futStates := aset st.futStates st.nextFut .pending
        nextFut := st.nextFut + 1 })

/-- Modelled from the spec: `reject` "completes the Future for that hash
exactly once"; rejecting an already-completed future changes nothing. -/
def reject_future (st : WatchState) (fid : Nat) (msg : String) : WatchState :=
  match alookup st.futStates fid with
  | some .pending => { st with futStates := aset st.futStates fid (.rejected msg) }
  | _ => st

/-- Modelled from the spec: a failed connect attempt "rejects all pending
futures registered on this connection with the failure". -/
def reject_all_pending (st : WatchState) (msg : String) : WatchState :=
  { st with
    futStates := st.futStates.map
      (fun p => if p.2 = FutStatus.pending then (p.1, FutStatus.rejected msg) else p) }

/-- The work `watch` defers to the `connected.add_done_callback(after)`
callback: which subscription key guards it, which future it rejects on
failure, and the outgoing message (if any). -/
structure AfterAction where
  subscribeHash : Option SubKey
  futId : Nat
  message : Option String
deriving DecidableEq, Repr

/-- Python `subscription or True`: the descriptor when provided, else the
`True` marker. -/
def sub_val (s : Option String) : SubVal :=
  match s with
  | some d => SubVal.descriptor d
  | none => SubVal.marker

/-- Body of `watch` past the fan-in early return: record the subscription
key if absent (`client.subscriptions[subscribe_hash] = subscription or
True`), and — only when the key was newly recorded — register the `after`
callback on the `connected` future, here returned as a deferred action. -/
def watch_body (message : Option String) (subscribeHash : Option SubKey)
    (subscription : Option String) (fid : Nat) (st1 : WatchState) :
    Nat × WatchState × Option AfterAction :=
  let subscribed := (alookup st1.subscriptions subscribeHash).isSome
  let st2 :=
    if subscribed then st1
    else
      { st1 with
        subscriptions := aset st1.subscriptions subscribeHash (sub_val subscription) }
  (fid, st2, if subscribed then none else some ⟨subscribeHash, fid, message⟩)

/-- The synchronous part of `Exchange.watch` (lines 385-424): if
`subscribe_hash is None` and a future already exists for `message_hash`,
return it immediately (fan-in) without touching any state; otherwise
obtain/create the future and run the subscription body.  Returns the future
id handed to the caller, the updated state, and the deferred callback action
(if any). -/
def watch_sync (hash : MessageHash) (message : Option String)
    (subscribeHash : Option SubKey) (subscription : Option String)
    (st : WatchState) : Nat × WatchState × Option AfterAction :=
  if subscribeHash.isNone ∧ (alookup st.futures hash).isSome then
    ((alookup st.futures hash).getD 0, st, none)
  else
    let r := client_future st hash
    watch_body message subscribeHash subscription r.1 r.2

/-- The deferred part of the `watch` flow: the `connected` future completes
(on failure the connection rejects every pending future with the failure —
modelled from the spec, section 4.2), then the `after` callback runs
regardless of the outcome and schedules `send_message()`, which throttles and
calls `client.send(message)`; a `ConnectionError` from `send` (raised in
particular when the open failed — modelled from the spec) deletes the
subscription key and rejects the future with that error. -/
def run_after (env : WatchEnv) (st : WatchState) (act : AfterAction) : WatchState :=
  let st :=
    match env.connectFailed with
    | none => st
    | some m => reject_all_pending st m
  match act.message with
  | none => st
  | some m =>
    let sendErr : Option String :=
      match env.connectFailed with
      | some cm => some cm
      | none => env.sendFails
    match sendErr with
    | none => { st with sent := st.sent ++ [m] }
    | some em =>
      reject_future
        { st with subscriptions := aremove st.subscriptions act.subscribeHash }
        act.futId em

/-- One `watch` call run to quiescence: the synchronous part followed by its
deferred callback (when one was registered). -/
def watch_run (env : WatchEnv) (hash : MessageHash) (message : Option String)
    (subscribeHash : Option SubKey) (subscription : Option String)
    (st : WatchState) : Nat × WatchState :=
  let r := watch_sync hash message subscribeHash subscription st
  match r.2.2 with
  | none => (r.1, r.2.1)
  | some a => (r.1, run_after env r.2.1 a)

/-- Two concurrent `watch` calls: both synchronous parts run before either
deferred callback (the adversarial interleaving for the duplicate-subscribe
invariant). -/
def watch_run2_concurrent (env : WatchEnv)
    (h1 : MessageHash) (m1 : Option String) (k1 : Option SubKey) (s1 : Option String)
    (h2 : MessageHash) (m2 : Option String) (k2 : Option SubKey) (s2 : Option String)
    (st : WatchState) : WatchState :=
  let r1 := watch_sync h1 m1 k1 s1 st
  let r2 := watch_sync h2 m2 k2 s2 r1.2.1
  let st3 := match r1.2.2 with | none => r2.2.1 | some a => run_after env r2.2.1 a
  match r2.2.2 with | none => st3 | some a => run_after env st3 a

/-! ## Shutdown: `ws_close` and `close` (exchange.py lines 118-123, 444-448) -/

/-- Environment for shutdown: which transports raise from their `close()`
coroutine.  (`FastClient.close` is a collaborator outside the source file given here;
only whether it raises matters here.) -/
structure CloseEnv where
  closeFails : Url → Bool

/-- Process-level connection/session state for shutdown: the registry of
connected client URLs (`self.clients`), the transports whose `close()`
coroutine has been started and awaited to completion (paired with whether it
completed cleanly), and the aiohttp session flag. -/
structure RegState where
  clients : List Url
  closedTransports : List (Url × Bool)
  sessionOpen : Bool
deriving DecidableEq, Repr

/-- `Exchange.ws_close`: when the registry is non-empty, start a close task
for every registered client and `asyncio.wait` on all of them with
`return_when=ALL_COMPLETED` — every close coroutine runs to completion (a
raising close merely completes its task with the exception retained, it does
not abort the wait) — and then delete every URL from the registry. -/
def ws_close (env : CloseEnv) (st : RegState) : RegState :=
  if st.clients.isEmpty then st
  else
    { st with
      closedTransports :=
        st.closedTransports ++ st.clients.map (fun u => (u, !env.closeFails u))
      clients := [] }

/-- `Exchange.close`: await `ws_close`, then close and drop the owned aiohttp
session. -/
def close (env : CloseEnv) (st : RegState) : RegState :=
  let st := ws_close env st
  { st with sessionOpen := false }

/-! ## Order-book synchronizer: `load_order_book` (exchange.py lines 450-473)

`β` is the content of an order book (everything `OrderBook.reset` replaces:
sides, nonce, timestamp), `δ` the type of one cached raw delta.  The
venue-specific collaborators — `fetch_order_book`, `get_cache_index` and
`handle_delta`, which the base class leaves to the per-exchange adapter —
are fields of the environment.  `OrderBook.reset(snapshot)` (a collaborator
outside the source file given here) is modelled from the spec: it replaces the book
content by the snapshot and leaves the delta cache untouched (the source
clears the cache with an explicit `cache.clear()` afterwards). -/

/-- An order book as `load_order_book` sees it: its content plus the bounded
FIFO cache of buffered deltas. -/
structure OBook (β δ : Type) where
  book : β
  cache : List δ
deriving DecidableEq, Repr

/-- Observable completions of futures performed through the client during
`load_order_book`: `client.resolve(stored, messageHash)` and
`client.reject(error, messageHash)`. -/
inductive SyncEvent (β δ : Type) where
  | resolve (hash : MessageHash) (ob : OBook β δ)
  | reject (hash : MessageHash) (e : CcxtError)
deriving DecidableEq, Repr

/-- Environment of `load_order_book`: the exchange id (used in error
messages), `maxRetries` (read via `self.handle_option` with default 3), and the adapter collaborators.  `fetchOrderBook n` is the
result of the `n`-th REST snapshot fetch performed by this process (each
attempt fetches a fresh snapshot), either a snapshot or a raised ccxt
`BaseError`. -/
structure SyncEnv (β δ : Type) where
  id : String
  maxRetries : Nat
  fetchOrderBook : Nat → Except CcxtError β
  getCacheIndex : β → List δ → Int
  handleDelta : β → δ → Except CcxtError β

/-- State `load_order_book` reads and mutates: `self.orderbooks`, the
process-wide `self.clients` registry (only URL presence matters here), the
trace of future completions, and the running count of snapshot fetches. -/
structure SyncState (β δ : Type) where
  orderbooks : List (Symbol × OBook β δ)
  clients : List Url
  events : List (SyncEvent β δ)
  fetches : Nat
deriving DecidableEq, Repr

/-- Message of the error rejected when the symbol has no order book entry.
Source: the id followed by " loadOrderBook() orderbook is not initiated". -/
def orderbook_not_initiated_msg (id : String) : String :=
  id ++ " loadOrderBook() orderbook is not initiated"

/-- Message of the nonce-gap error rejected on retry exhaustion.  Source:
the id followed by " nonce is behind cache after ", the retry count and " tries.". -/
def nonce_gap_msg (id : String) (maxRetries : Nat) : String :=
  id ++ " nonce is behind cache after " ++ toString maxRetries ++ " tries."

/-- `Exchange.handle_deltas(orderbook, deltas)` (lines 519-521): apply each
delta to the book in list order via `handle_delta`.  If some delta raises,
the book keeps the mutations of the preceding deltas and the error is
reported (`some e`); otherwise the final book is returned with `none`. -/
def handle_deltas {β δ : Type} (hd : β → δ → Except CcxtError β) :
    β → List δ → β × Option CcxtError
  | b, [] => (b, none)
  | b, d :: ds =>
    match hd b d with
    | .ok b2 => handle_deltas hd b2 ds
    | .error e => (b, some e)

/-- Result of the `while tries < maxRetries` loop of `load_order_book`:
either the success branch returned, or the loop exhausted its retries, or a
ccxt `BaseError` was raised inside the `try`. -/
inductive TryOutcome (β δ : Type) where
  | returned (st : SyncState β δ)
  | exhausted (st : SyncState β δ)
  | raised (e : CcxtError) (st : SyncState β δ)
deriving DecidableEq, Repr

/-- The `while tries < maxRetries` loop of `load_order_book` (lines
458-468), with `remaining = maxRetries - tries`: fetch a fresh snapshot,
compute the cache index; on `index >= 0` reset the stored book to the
snapshot, apply the cached deltas from `index` on in order, clear the cache,
resolve the waiters on `hash` with the stored book and return.  A raising
fetch aborts with that error; a raising delta aborts with the error after
the book has been reset and partially updated (the cache is not cleared). -/
def sync_loop {β δ : Type} (env : SyncEnv β δ) (hash : MessageHash)
    (sym : Symbol) (stored : OBook β δ) :
    Nat → SyncState β δ → TryOutcome β δ
  | 0, st => .exhausted st
  | remaining + 1, st =>
    match env.fetchOrderBook st.fetches with
    | .error e => .raised e { st with fetches := st.fetches + 1 }
    | .ok ob =>
      if 0 ≤ env.getCacheIndex ob stored.cache then
        match handle_deltas env.handleDelta ob
            (stored.cache.drop (env.getCacheIndex ob stored.cache).toNat) with
        | (b2, none) =>
          .returned { st with
            fetches := st.fetches + 1
            orderbooks := aset st.orderbooks sym ⟨b2, []⟩
            events := st.events ++ [.resolve hash ⟨b2, []⟩] }
        | (b2, some e) =>
          .raised e { st with
            fetches := st.fetches + 1
            orderbooks := aset st.orderbooks sym ⟨b2, stored.cache⟩ }
      else
        sync_loop env hash sym stored remaining { st with fetches := st.fetches + 1 }

/-- How a run of `load_order_book` ended: returned normally, ran out of
recursion fuel (the source recurses into itself on any `BaseError`), or
escaped with a non-`BaseError` Python exception (`KeyError` from `del
self.clients[client.url]` when the URL is not registered). -/
inductive SyncOutcome where
  | done
  | fuelOut
  | pyError
deriving DecidableEq, Repr

/-- `Exchange.load_order_book(client, messageHash, symbol, ...)` (lines
450-473), with explicit recursion fuel: reject immediately when the symbol
has no order book; otherwise run the retry loop; on exhaustion reject the
waiters with the nonce-gap error and delete the URL of the client from the
registry; on a raised ccxt `BaseError` reject the waiters with it and
recurse into a fresh attempt cycle. -/
def load_order_book {β δ : Type} (env : SyncEnv β δ) (url : Url)
    (hash : MessageHash) (sym : Symbol) :
    Nat → SyncState β δ → SyncState β δ × SyncOutcome
  | 0, st => (st, .fuelOut)
  | fuel + 1, st =>
    match alookup st.orderbooks sym with
    | none =>
      ({ st with
          events := st.events ++
            [.reject hash (.exchangeError (orderbook_not_initiated_msg env.id))] },
        .done)
    | some stored =>
      match sync_loop env hash sym stored env.maxRetries st with
      | .returned st1 => (st1, .done)
      | .exhausted st1 =>
        let st2 : SyncState β δ := { st1 with
          events := st1.events ++
            [.reject hash (.exchangeError (nonce_gap_msg env.id env.maxRetries))] }
        if url ∈ st2.clients then
          ({ st2 with clients := st2.clients.erase url }, .done)
        else (st2, .pyError)
      | .raised e st1 =>
        load_order_book env url hash sym fuel
          { st1 with events := st1.events ++ [.reject hash e] }

/-! ## Concrete fixtures used by the closed witness and counterexample
theorems -/

/-- Watch environment in which the connect attempt and the send succeed. -/
def wEnvOk : WatchEnv := { connectFailed := none, sendFails := none }

/-- Watch environment in which `client.send` raises `ConnectionError`. -/
def wEnvSendFail : WatchEnv := { connectFailed := none, sendFails := some "connection reset" }

/-- Empty connection state. -/
def wStEmpty : WatchState :=
  { futures := [], futStates := [], nextFut := 0, subscriptions := [], sent := [] }

/-- Connection state that already holds future 7 for a ticker hash. -/
def wStFan : WatchState :=
  { futures := [("ticker:BTC/USDT", 7)], futStates := [(7, .pending)], nextFut := 8
    subscriptions := [], sent := [] }

/-- Three registered connections, of which the close of `wss://b` raises. -/
def closeEnvOneFails : CloseEnv := { closeFails := fun u => u = "wss://b" }

/-- Registry with three open connections and an open session. -/
def regStThree : RegState :=
  { clients := ["wss://a", "wss://b", "wss://c"], closedTransports := [], sessionOpen := true }

/-- Synchronizer environment over nonces: a snapshot and a delta are both
reduced to their nonce, `getCacheIndex` finds the first cached delta whose
nonce exceeds the snapshot nonce (the spec resync scenario), and
`handleDelta` advances the book to the delta nonce.  Every fetch yields
nonce 103. -/
def natSyncEnv : SyncEnv Nat Nat :=
  { id := "test", maxRetries := 3
    fetchOrderBook := fun _ => .ok 103
    getCacheIndex := fun snap cache =>
      match cache.findIdx? (fun d => decide (snap < d)) with
      | some i => (i : Int)
      | none => -1
    handleDelta := fun _ d => .ok d }

/-- Variant whose first fetch is behind the whole cache (nonce 200, no join
point) and whose later fetches yield nonce 103. -/
def natSyncEnv2 : SyncEnv Nat Nat :=
  { natSyncEnv with fetchOrderBook := fun n => if n = 0 then .ok 200 else .ok 103 }

/-- Variant in which no snapshot ever has a join point in the cache. -/
def behindEnv : SyncEnv Nat Nat :=
  { natSyncEnv with getCacheIndex := fun _ _ => -1 }

/-- Variant in which every snapshot fetch raises `ExchangeNotAvailable`. -/
def errFetchEnv : SyncEnv Nat Nat :=
  { natSyncEnv with fetchOrderBook := fun _ => .error (.exchangeNotAvailable "test GET url") }

/-- Variant in which every fetch succeeds and the join point is always the
start of the cache. -/
def okIdxEnv : SyncEnv Nat Nat :=
  { natSyncEnv with getCacheIndex := fun _ _ => 0 }

/-- Synchronizer state holding one order book with cached delta nonces
101..105 (the spec resync scenario) and one registered connection. -/
def natSyncSt : SyncState Nat Nat :=
  { orderbooks := [("BTC/USDT", ⟨0, [101, 102, 103, 104, 105]⟩)]
    clients := ["wss://a"], events := [], fetches := 0 }

/-! ## Helper lemmas -/

theorem alookup_aset {α γ : Type} [DecidableEq α]
    (l : List (α × γ)) (a : α) (v : γ) : alookup (aset l a v) a = some v := by
  induction l with
  | nil => simp [aset, alookup]
  | cons p rest ih =>
    by_cases h : p.1 = a <;> simp [aset, alookup, h, ih]

theorem alookup_aset_ne {α γ : Type} [DecidableEq α]
    (l : List (α × γ)) (a b : α) (v : γ) (hne : a ≠ b) :
    alookup (aset l a v) b = alookup l b := by
  induction l with
  | nil => simp [aset, alookup, hne]
  | cons p rest ih =>
    by_cases h : p.1 = a
    · simp [aset, alookup, h, hne]
    · simp only [aset, alookup, h, if_false]
      by_cases h2 : p.1 = b <;> simp [h2, ih]

theorem alookup_aremove {α γ : Type} [DecidableEq α]
    (l : List (α × γ)) (a : α) : alookup (aremove l a) a = none := by
  induction l with
  | nil => simp [aremove, alookup]
  | cons p rest ih =>
    by_cases h : p.1 = a
    · simpa [aremove, alookup, h] using ih
    · simpa [aremove, alookup, h] using ih

theorem alookup_reject_all (l : List (Nat × FutStatus)) (a : Nat) (m : String) :
    alookup
        (l.map (fun p =>
          if p.2 = FutStatus.pending then (p.1, FutStatus.rejected m) else p)) a
      = (alookup l a).map
          (fun v => if v = FutStatus.pending then FutStatus.rejected m else v) := by
  induction l with
  | nil => simp [alookup]
  | cons p rest ih =>
    obtain ⟨k, v⟩ := p
    by_cases hv : v = FutStatus.pending
    · subst hv
      rw [List.map_cons, show
          (if ((k, FutStatus.pending) : Nat × FutStatus).2 = FutStatus.pending then
            (((k, FutStatus.pending) : Nat × FutStatus).1, FutStatus.rejected m)
          else (k, FutStatus.pending)) = (k, FutStatus.rejected m) by simp]
      by_cases hk : k = a <;> simp [alookup, hk, ih]
    · rw [List.map_cons, show
          (if ((k, v) : Nat × FutStatus).2 = FutStatus.pending then
            (((k, v) : Nat × FutStatus).1, FutStatus.rejected m)
          else (k, v)) = (k, v) by simp [hv]]
      by_cases hk : k = a <;> simp [alookup, hk, hv, ih]

theorem client_future_subscriptions (st : WatchState) (hash : MessageHash) :
    (client_future st hash).2.subscriptions = st.subscriptions := by
  unfold client_future
  cases alookup st.futures hash <;> rfl

theorem client_future_sent (st : WatchState) (hash : MessageHash) :
    (client_future st hash).2.sent = st.sent := by
  unfold client_future
  cases alookup st.futures hash <;> rfl

theorem handle_deltas_total {β δ : Type} (hd : β → δ → Except CcxtError β)
    (h : ∀ b d, ∃ b2, hd b d = .ok b2) (b : β) (ds : List δ) :
    (handle_deltas hd b ds).2 = none := by
  induction ds generalizing b with
  | nil => rfl
  | cons d ds ih =>
    obtain ⟨b2, hb2⟩ := h b d
    simp [handle_deltas, hb2, ih]

/-! ## Claim theorems -/

/-- C9: transport failures in `fetch` are mapped onto the error taxonomy:
DNS resolution failure (`socket.gaierror`) raises `ExchangeNotAvailable`,
timeouts raise `RequestTimeout`, `aiohttp.ClientConnectionError` raises
`ExchangeNotAvailable`, and any other `aiohttp.ClientError` raises the
generic `ExchangeError`. -/
theorem fetch_maps_transport_errors (id method url : String) :
    fetchRaises id method url .gaierror
      (.exchangeNotAvailable (id ++ " " ++ method ++ " " ++ url)) ∧
    fetchRaises id method url .concurrentTimeoutErr
      (.requestTimeout (id ++ " " ++ method ++ " " ++ url)) ∧
    fetchRaises id method url .asyncioTimeoutErr
      (.requestTimeout (id ++ " " ++ method ++ " " ++ url)) ∧
    fetchRaises id method url .clientConnectionErr
      (.exchangeNotAvailable (id ++ " " ++ method ++ " " ++ url)) ∧
    fetchRaises id method url .clientPayloadErr
      (.exchangeError (id ++ " " ++ method ++ " " ++ url)) := by
  refine ⟨rfl, rfl, rfl, rfl, rfl⟩

/-- C8: closing the system closes every registered connection and waits for
all of those closes to complete before returning — independently of which
individual transport closes fail — and afterwards the connection registry is
empty. -/
theorem close_closes_all_and_empties_registry (env : CloseEnv) (st : RegState) :
    (∀ u ∈ st.clients, (u, !env.closeFails u) ∈ (close env st).closedTransports) ∧
    (close env st).clients = [] ∧
    (close env st).sessionOpen = false := by
  unfold close ws_close
  by_cases h : st.clients.isEmpty
  · refine ⟨?_, ?_, ?_⟩ <;> simp_all [List.isEmpty_iff]
  · refine ⟨?_, ?_, ?_⟩ <;> simp_all
    intro u hu
    exact Or.inr ⟨u, hu, rfl, rfl⟩

/-- Witness for C8: closing a process with three open connections closes all
three transports — including `wss://b` whose close raises — and empties the
registry. -/
theorem close_closes_all_and_empties_registry_witness :
    (∀ u ∈ regStThree.clients,
        (u, !closeEnvOneFails.closeFails u) ∈
          (close closeEnvOneFails regStThree).closedTransports) ∧
    (close closeEnvOneFails regStThree).clients = [] ∧
    (close closeEnvOneFails regStThree).sessionOpen = false :=
  close_closes_all_and_empties_registry closeEnvOneFails regStThree

/-- C4: a `watch` call with no subscribe key whose message hash already has
a Future on this connection returns that existing Future immediately: no new
Future is created, no subscription is recorded, nothing is sent — the
connection state is entirely unchanged and no deferred callback exists. -/
theorem watch_fan_in_returns_existing_future (env : WatchEnv)
    (hash : MessageHash) (message : Option String) (subscription : Option String)
    (st : WatchState) (fid : Nat)
    (hfut : alookup st.futures hash = some fid) :
    watch_sync hash message none subscription st = (fid, st, none) ∧
    watch_run env hash message none subscription st = (fid, st) := by
  have h1 : watch_sync hash message none subscription st = (fid, st, none) := by
    unfold watch_sync
    rw [if_pos (by simp [hfut])]
    simp [hfut]
  refine ⟨h1, ?_⟩
  unfold watch_run
  rw [h1]

/-- Witness for C4: on a connection already holding future 7 for the hash,
`watch` with no subscribe key returns future 7 and changes nothing. -/
theorem watch_fan_in_returns_existing_future_witness :
    watch_sync "ticker:BTC/USDT" none none none wStFan = (7, wStFan, none) ∧
    watch_run wEnvOk "ticker:BTC/USDT" none none none wStFan = (7, wStFan) :=
  watch_fan_in_returns_existing_future wEnvOk "ticker:BTC/USDT" none none wStFan 7
    (by decide)

/-- C7: a `load_order_book` call for a symbol with no order-book entry
rejects the waiters on the message hash with the non-retryable
"orderbook is not initiated" `ExchangeError` and returns at once: no
snapshot fetch happens, and the order books, delta caches and connection
registry are left unchanged. -/
theorem load_order_book_missing_orderbook {β δ : Type} (env : SyncEnv β δ)
    (url : Url) (hash : MessageHash) (sym : Symbol) (fuel : Nat)
    (st : SyncState β δ)
    (hmiss : alookup st.orderbooks sym = none) :
    load_order_book env url hash sym (fuel + 1) st =
      ({ st with
          events := st.events ++
            [.reject hash (.exchangeError (orderbook_not_initiated_msg env.id))] },
        .done) ∧
    (load_order_book env url hash sym (fuel + 1) st).1.orderbooks = st.orderbooks ∧
    (load_order_book env url hash sym (fuel + 1) st).1.clients = st.clients ∧
    (load_order_book env url hash sym (fuel + 1) st).1.fetches = st.fetches := by
  have h1 : load_order_book env url hash sym (fuel + 1) st =
      ({ st with
          events := st.events ++
            [.reject hash (.exchangeError (orderbook_not_initiated_msg env.id))] },
        .done) := by
    unfold load_order_book
    rw [hmiss]
  exact ⟨h1, by rw [h1], by rw [h1], by rw [h1]⟩

/-- Witness for C7: loading an order book for an uninitialised symbol
rejects with the "not initiated" error and leaves the state otherwise
untouched. -/
theorem load_order_book_missing_orderbook_witness :
    load_order_book natSyncEnv "wss://a" "ob:ETH/USDT" "ETH/USDT" 1 natSyncSt =
      ({ natSyncSt with
          events := natSyncSt.events ++
            [.reject "ob:ETH/USDT"
              (.exchangeError (orderbook_not_initiated_msg natSyncEnv.id))] },
        .done) ∧
    (load_order_book natSyncEnv "wss://a" "ob:ETH/USDT" "ETH/USDT" 1 natSyncSt).1.orderbooks
      = natSyncSt.orderbooks ∧
    (load_order_book natSyncEnv "wss://a" "ob:ETH/USDT" "ETH/USDT" 1 natSyncSt).1.clients
      = natSyncSt.clients ∧
    (load_order_book natSyncEnv "wss://a" "ob:ETH/USDT" "ETH/USDT" 1 natSyncSt).1.fetches
      = natSyncSt.fetches :=
  load_order_book_missing_orderbook natSyncEnv "wss://a" "ob:ETH/USDT" "ETH/USDT" 0
    natSyncSt (by decide)

/-- Every snapshot in the first `remaining` fetches is behind the cache
(`index < 0`): the retry loop exhausts, performing exactly `remaining`
fetches and leaving everything else untouched. -/
theorem sync_loop_all_behind {β δ : Type} (env : SyncEnv β δ) (hash : MessageHash)
    (sym : Symbol) (stored : OBook β δ) (remaining : Nat) :
    ∀ st : SyncState β δ,
      (∀ j < remaining, ∃ sj, env.fetchOrderBook (st.fetches + j) = .ok sj ∧
          env.getCacheIndex sj stored.cache < 0) →
      sync_loop env hash sym stored remaining st =
        .exhausted { st with fetches := st.fetches + remaining } := by
  induction remaining with
  | zero =>
    intro st _
    simp [sync_loop]
  | succ r ih =>
    intro st h
    obtain ⟨s0, hf0, hi0⟩ := h 0 (Nat.succ_pos r)
    rw [Nat.add_zero] at hf0
    have hrec := ih { st with fetches := st.fetches + 1 } (fun j hj => by
      obtain ⟨sj, hfj, hij⟩ := h (j + 1) (by omega)
      refine ⟨sj, ?_, hij⟩
      rw [show st.fetches + 1 + j = st.fetches + (j + 1) by omega]
      exact hfj)
    simp only [sync_loop, hf0, if_neg (by omega : ¬ (0 : Int) ≤ env.getCacheIndex s0 stored.cache),
      hrec]
    rw [show st.fetches + 1 + r = st.fetches + (r + 1) by omega]

/-- C2: when `maxRetries` consecutive snapshot fetches all return a snapshot
with no join point in the cache (`index < 0`) and none raises,
`load_order_book` rejects the waiters on the message hash with the
nonce-gap `ExchangeError` (its message names the nonce and the retry count,
distinguishing it from transport errors) and deletes the URL of the client from
the connection registry, so a later watch starts from scratch. -/
theorem load_order_book_exhaustion_rejects_and_drops {β δ : Type}
    (env : SyncEnv β δ) (url : Url) (hash : MessageHash) (sym : Symbol)
    (fuel : Nat) (st : SyncState β δ) (stored : OBook β δ)
    (hsym : alookup st.orderbooks sym = some stored)
    (hbehind : ∀ j < env.maxRetries, ∃ sj,
        env.fetchOrderBook (st.fetches + j) = .ok sj ∧
        env.getCacheIndex sj stored.cache < 0)
    (hurl : url ∈ st.clients) (hnd : st.clients.Nodup) :
    load_order_book env url hash sym (fuel + 1) st =
      ({ st with
          fetches := st.fetches + env.maxRetries
          events := st.events ++
            [.reject hash (.exchangeError (nonce_gap_msg env.id env.maxRetries))]
          clients := st.clients.erase url },
        .done) ∧
    url ∉ (load_order_book env url hash sym (fuel + 1) st).1.clients := by
  have hloop := sync_loop_all_behind env hash sym stored env.maxRetries st hbehind
  have h1 : load_order_book env url hash sym (fuel + 1) st =
      ({ st with
          fetches := st.fetches + env.maxRetries
          events := st.events ++
            [.reject hash (.exchangeError (nonce_gap_msg env.id env.maxRetries))]
          clients := st.clients.erase url },
        .done) := by
    unfold load_order_book
    rw [hsym]
    simp only [hloop]
    rw [if_pos hurl]
  refine ⟨h1, ?_⟩
  rw [h1]
  exact hnd.not_mem_erase

/-- Witness for C2: three fetches of a snapshot that is behind the cached
deltas reject with the nonce-gap error and drop the connection from the
registry. -/
theorem load_order_book_exhaustion_rejects_and_drops_witness :
    load_order_book behindEnv "wss://a" "ob:BTC/USDT" "BTC/USDT" 1 natSyncSt =
      ({ natSyncSt with
          fetches := natSyncSt.fetches + behindEnv.maxRetries
          events := natSyncSt.events ++
            [.reject "ob:BTC/USDT"
              (.exchangeError (nonce_gap_msg behindEnv.id behindEnv.maxRetries))]
          clients := natSyncSt.clients.erase "wss://a" },
        .done) ∧
    "wss://a" ∉
      (load_order_book behindEnv "wss://a" "ob:BTC/USDT" "BTC/USDT" 1 natSyncSt).1.clients :=
  load_order_book_exhaustion_rejects_and_drops behindEnv "wss://a" "ob:BTC/USDT"
    "BTC/USDT" 0 natSyncSt ⟨0, [101, 102, 103, 104, 105]⟩ (by decide)
    (fun j hj => ⟨103, rfl, by decide⟩) (by decide) (by decide)

/-- C10: whenever the retry loop raises a ccxt `BaseError` — snapshot fetch
failed or delta application failed — `load_order_book` first rejects the
waiters on the message hash with that very error and only then recurses into
a fresh attempt cycle: the fresh cycle starts from a state whose event trace
already ends with the rejection. -/
theorem load_order_book_rejects_each_transient_error {β δ : Type}
    (env : SyncEnv β δ) (url : Url) (hash : MessageHash) (sym : Symbol)
    (fuel : Nat) (st st1 : SyncState β δ) (stored : OBook β δ) (e : CcxtError)
    (hsym : alookup st.orderbooks sym = some stored)
    (hraise : sync_loop env hash sym stored env.maxRetries st = .raised e st1) :
    load_order_book env url hash sym (fuel + 1) st =
      load_order_book env url hash sym fuel
        { st1 with events := st1.events ++ [.reject hash e] } := by
  conv_lhs => rw [load_order_book]
  rw [hsym]
  simp only [hraise]

/-- Witness for C10: with a transport that makes every snapshot fetch raise
`ExchangeNotAvailable`, the first cycle rejects the waiters with exactly that
error before the recursive fresh cycle begins. -/
theorem load_order_book_rejects_each_transient_error_witness :
    load_order_book errFetchEnv "wss://a" "ob:BTC/USDT" "BTC/USDT" 1 natSyncSt =
      load_order_book errFetchEnv "wss://a" "ob:BTC/USDT" "BTC/USDT" 0
        { orderbooks := natSyncSt.orderbooks
          clients := natSyncSt.clients
          events := natSyncSt.events ++
            [.reject "ob:BTC/USDT" (.exchangeNotAvailable "test GET url")]
          fetches := 1 } :=
  load_order_book_rejects_each_transient_error errFetchEnv "wss://a" "ob:BTC/USDT"
    "BTC/USDT" 0 natSyncSt { natSyncSt with fetches := 1 }
    ⟨0, [101, 102, 103, 104, 105]⟩ (.exchangeNotAvailable "test GET url")
    (by decide) (by decide)

/-- The retry loop when attempt `k` (below `remaining`) is the first whose
snapshot has a join point: the `k` earlier snapshots are behind the cache,
then the success branch runs — the stored book becomes the snapshot with the
cached deltas from the join index applied in order, its cache is cleared,
and the waiters are resolved with exactly that book. -/
theorem sync_loop_success {β δ : Type} (env : SyncEnv β δ) (hash : MessageHash)
    (sym : Symbol) (stored : OBook β δ) (snap b2 : β) (k : Nat) :
    ∀ (remaining : Nat) (st : SyncState β δ),
      k < remaining →
      (∀ j < k, ∃ sj, env.fetchOrderBook (st.fetches + j) = .ok sj ∧
          env.getCacheIndex sj stored.cache < 0) →
      env.fetchOrderBook (st.fetches + k) = .ok snap →
      0 ≤ env.getCacheIndex snap stored.cache →
      handle_deltas env.handleDelta snap
          (stored.cache.drop (env.getCacheIndex snap stored.cache).toNat) = (b2, none) →
      sync_loop env hash sym stored remaining st =
        .returned { st with
          fetches := st.fetches + k + 1
          orderbooks := aset st.orderbooks sym ⟨b2, []⟩
          events := st.events ++ [.resolve hash ⟨b2, []⟩] } := by
  induction k with
  | zero =>
    intro remaining st hlt _ hsn hidx hdel
    obtain ⟨r, rfl⟩ : ∃ r, remaining = r + 1 := ⟨remaining - 1, by omega⟩
    rw [Nat.add_zero] at hsn
    simp only [sync_loop, hsn, if_pos hidx, hdel, Nat.add_zero]
  | succ k ih =>
    intro remaining st hlt hbehind hsn hidx hdel
    obtain ⟨r, rfl⟩ : ∃ r, remaining = r + 1 := ⟨remaining - 1, by omega⟩
    obtain ⟨s0, hf0, hi0⟩ := hbehind 0 (Nat.succ_pos k)
    rw [Nat.add_zero] at hf0
    have hrec := ih r { st with fetches := st.fetches + 1 } (by omega)
      (fun j hj => by
        obtain ⟨sj, hfj, hij⟩ := hbehind (j + 1) (by omega)
        refine ⟨sj, ?_, hij⟩
        rw [show st.fetches + 1 + j = st.fetches + (j + 1) by omega]
        exact hfj)
      (by
        rw [show st.fetches + 1 + k = st.fetches + (k + 1) by omega]
        exact hsn)
      hidx hdel
    simp only [sync_loop, hf0,
      if_neg (by omega : ¬ (0 : Int) ≤ env.getCacheIndex s0 stored.cache), hrec]
    rw [show st.fetches + 1 + k + 1 = st.fetches + (k + 1) + 1 by omega]

/-- C1: when the order book of the symbol exists and the `k`-th snapshot fetch
(`k` below `maxRetries`, all earlier snapshots behind the cache) yields a
snapshot whose cache index is non-negative, `load_order_book` resets the
stored book to the snapshot, applies every cached delta from that index
onward in list order via `handle_deltas`, clears the delta cache, resolves
the waiters on the message hash of the symbol with that now-consistent book, and
returns. -/
theorem load_order_book_success_path {β δ : Type}
    (env : SyncEnv β δ) (url : Url) (hash : MessageHash) (sym : Symbol)
    (fuel k : Nat) (st : SyncState β δ) (stored : OBook β δ) (snap b2 : β)
    (hsym : alookup st.orderbooks sym = some stored)
    (hk : k < env.maxRetries)
    (hbehind : ∀ j < k, ∃ sj, env.fetchOrderBook (st.fetches + j) = .ok sj ∧
        env.getCacheIndex sj stored.cache < 0)
    (hsn : env.fetchOrderBook (st.fetches + k) = .ok snap)
    (hidx : 0 ≤ env.getCacheIndex snap stored.cache)
    (hdel : handle_deltas env.handleDelta snap
        (stored.cache.drop (env.getCacheIndex snap stored.cache).toNat) = (b2, none)) :
    load_order_book env url hash sym (fuel + 1) st =
      ({ st with
          fetches := st.fetches + k + 1
          orderbooks := aset st.orderbooks sym ⟨b2, []⟩
          events := st.events ++ [.resolve hash ⟨b2, []⟩] },
        .done) := by
  have hloop := sync_loop_success env hash sym stored snap b2 k env.maxRetries st
    hk hbehind hsn hidx hdel
  conv_lhs => rw [load_order_book]
  rw [hsym]
  simp only [hloop]

/-- Witness for C1 (the spec resync scenario): cached delta nonces 101..105;
the first snapshot (nonce 200) has no join point, the second (nonce 103)
joins at index 3; deltas 104 and 105 are applied in order, the cache is
cleared, and the waiters are resolved with the book at nonce 105. -/
theorem load_order_book_success_path_witness :
    load_order_book natSyncEnv2 "wss://a" "ob:BTC/USDT" "BTC/USDT" 1 natSyncSt =
      ({ natSyncSt with
          fetches := natSyncSt.fetches + 1 + 1
          orderbooks := aset natSyncSt.orderbooks "BTC/USDT" ⟨105, []⟩
          events := natSyncSt.events ++ [.resolve "ob:BTC/USDT" ⟨105, []⟩] },
        .done) :=
  load_order_book_success_path natSyncEnv2 "wss://a" "ob:BTC/USDT" "BTC/USDT" 0 1
    natSyncSt ⟨0, [101, 102, 103, 104, 105]⟩ 103 105
    (by decide) (by decide)
    (by
      intro j hj
      obtain rfl : j = 0 := by omega
      exact ⟨200, rfl, by decide⟩)
    rfl (by decide) (by decide)

/-- A run of `load_order_book` against `errFetchEnv` (every snapshot fetch
raises): each fuel level performs exactly one more fetch and the call never
returns — the recursion in the `except BaseError` branch has no cap. -/
theorem errFetch_run (hash : MessageHash) (sym : Symbol) :
    ∀ (fuel : Nat) (st : SyncState Nat Nat),
      (alookup st.orderbooks sym).isSome →
      (load_order_book errFetchEnv "wss://a" hash sym fuel st).1.fetches
        = st.fetches + fuel ∧
      (load_order_book errFetchEnv "wss://a" hash sym fuel st).2 = .fuelOut := by
  intro fuel
  induction fuel with
  | zero =>
    intro st _
    exact ⟨rfl, rfl⟩
  | succ fuel ih =>
    intro st hsome
    obtain ⟨stored, hst⟩ := Option.isSome_iff_exists.mp hsome
    have hloop : sync_loop errFetchEnv hash sym stored errFetchEnv.maxRetries st =
        .raised (.exchangeNotAvailable "test GET url")
          { st with fetches := st.fetches + 1 } := rfl
    have hstep : load_order_book errFetchEnv "wss://a" hash sym (fuel + 1) st =
        load_order_book errFetchEnv "wss://a" hash sym fuel
          { st with
            fetches := st.fetches + 1
            events := st.events ++
              [.reject hash (.exchangeNotAvailable "test GET url")] } := by
      conv_lhs => rw [load_order_book]
      rw [hst]
      simp only [hloop]
    rw [hstep]
    have hrec := ih
      { st with
        fetches := st.fetches + 1
        events := st.events ++ [.reject hash (.exchangeNotAvailable "test GET url")] }
      (by simpa using hsome)
    refine ⟨?_, hrec.2⟩
    rw [hrec.1]
    show st.fetches + 1 + fuel = st.fetches + (fuel + 1)
    omega

/-- C3 counterexample: with a transport where every snapshot fetch raises
`ExchangeNotAvailable`, `load_order_book` never terminates — whatever fuel
the recursion is given it runs out — and the total number of snapshot-fetch
attempts is not capped by any fixed retry ceiling. -/
theorem load_order_book_retries_unbounded :
    (∀ fuel : Nat,
      (load_order_book errFetchEnv "wss://a" "ob:BTC/USDT" "BTC/USDT" fuel natSyncSt).2
        = SyncOutcome.fuelOut) ∧
    ¬ ∃ N : Nat, ∀ fuel : Nat,
      (load_order_book errFetchEnv "wss://a" "ob:BTC/USDT" "BTC/USDT" fuel
          natSyncSt).1.fetches ≤ N := by
  have hsome : (alookup natSyncSt.orderbooks "BTC/USDT").isSome := by decide
  constructor
  · intro fuel
    exact (errFetch_run "ob:BTC/USDT" "BTC/USDT" fuel natSyncSt hsome).2
  · rintro ⟨N, hN⟩
    have h1 := (errFetch_run "ob:BTC/USDT" "BTC/USDT" (N + 1) natSyncSt hsome).1
    have h2 := hN (N + 1)
    rw [h1] at h2
    have h0 : natSyncSt.fetches = 0 := rfl
    omega

/-- The retry loop when no collaborator raises: it either returns (having
fetched at most `remaining` snapshots, with the registry untouched) or
exhausts after exactly `remaining` fetches. -/
theorem sync_loop_no_error {β δ : Type} (env : SyncEnv β δ) (hash : MessageHash)
    (sym : Symbol) (stored : OBook β δ)
    (hok : ∀ n, ∃ s, env.fetchOrderBook n = .ok s)
    (hd : ∀ b d, ∃ b2, env.handleDelta b d = .ok b2) :
    ∀ (remaining : Nat) (st : SyncState β δ),
      (∃ st1, sync_loop env hash sym stored remaining st = .returned st1 ∧
          st1.fetches ≤ st.fetches + remaining ∧ st1.clients = st.clients) ∨
      sync_loop env hash sym stored remaining st =
        .exhausted { st with fetches := st.fetches + remaining } := by
  intro remaining
  induction remaining with
  | zero =>
    intro st
    right
    simp [sync_loop]
  | succ r ih =>
    intro st
    obtain ⟨s0, hf0⟩ := hok st.fetches
    by_cases hidx : 0 ≤ env.getCacheIndex s0 stored.cache
    · left
      have hsnd := handle_deltas_total env.handleDelta hd s0
        (stored.cache.drop (env.getCacheIndex s0 stored.cache).toNat)
      have hdel : handle_deltas env.handleDelta s0
          (stored.cache.drop (env.getCacheIndex s0 stored.cache).toNat) =
          ((handle_deltas env.handleDelta s0
            (stored.cache.drop (env.getCacheIndex s0 stored.cache).toNat)).1, none) := by
        rw [← hsnd]
      obtain ⟨b2, hdel2⟩ : ∃ b2, handle_deltas env.handleDelta s0
          (stored.cache.drop (env.getCacheIndex s0 stored.cache).toNat) = (b2, none) :=
        ⟨_, hdel⟩
      refine ⟨{ st with
          fetches := st.fetches + 1
          orderbooks := aset st.orderbooks sym ⟨b2, []⟩
          events := st.events ++ [.resolve hash ⟨b2, []⟩] }, ?_, ?_, rfl⟩
      · simp only [sync_loop, hf0, if_pos hidx, hdel2]
      · show st.fetches + 1 ≤ st.fetches + (r + 1)
        omega
    · rcases ih { st with fetches := st.fetches + 1 } with ⟨st1, hloop, hb, hc⟩ | hloop
      · left
        refine ⟨st1, ?_, by simp only [] at hb ⊢; omega, hc⟩
        simp only [sync_loop, hf0, if_neg hidx, hloop]
      · right
        simp only [sync_loop, hf0, if_neg hidx, hloop]
        rw [show st.fetches + 1 + r = st.fetches + (r + 1) by omega]

/-- C3 amended: within a single attempt cycle in which neither the snapshot
fetch nor delta application raises, `load_order_book` terminates with at
most `maxRetries` (default 3) snapshot fetches; the unbounded behaviour of
the source arises only from the error-triggered recursion refuted above. -/
theorem load_order_book_bounded_within_cycle {β δ : Type}
    (env : SyncEnv β δ) (url : Url) (hash : MessageHash) (sym : Symbol)
    (fuel : Nat) (st : SyncState β δ)
    (hok : ∀ n, ∃ s, env.fetchOrderBook n = .ok s)
    (hd : ∀ b d, ∃ b2, env.handleDelta b d = .ok b2)
    (hsome : (alookup st.orderbooks sym).isSome)
    (hurl : url ∈ st.clients) :
    (load_order_book env url hash sym (fuel + 1) st).2 = SyncOutcome.done ∧
    (load_order_book env url hash sym (fuel + 1) st).1.fetches
      ≤ st.fetches + env.maxRetries := by
  obtain ⟨stored, hst⟩ := Option.isSome_iff_exists.mp hsome
  rcases sync_loop_no_error env hash sym stored hok hd env.maxRetries st with
    ⟨st1, hloop, hb, hc⟩ | hloop
  · have heq : load_order_book env url hash sym (fuel + 1) st = (st1, .done) := by
      conv_lhs => rw [load_order_book]
      rw [hst]
      simp only [hloop]
    rw [heq]
    exact ⟨rfl, hb⟩
  · have heq : load_order_book env url hash sym (fuel + 1) st =
        ({ st with
            fetches := st.fetches + env.maxRetries
            events := st.events ++
              [.reject hash (.exchangeError (nonce_gap_msg env.id env.maxRetries))]
            clients := st.clients.erase url },
          .done) := by
      conv_lhs => rw [load_order_book]
      rw [hst]
      simp only [hloop]
      rw [if_pos hurl]
    rw [heq]
    exact ⟨rfl, Nat.le_refl _⟩

/-- Witness for the amended C3: a non-raising environment whose first
snapshot immediately has a join point completes in one cycle with at most
`maxRetries` fetches. -/
theorem load_order_book_bounded_within_cycle_witness :
    (load_order_book okIdxEnv "wss://a" "ob:BTC/USDT" "BTC/USDT" 1 natSyncSt).2
      = SyncOutcome.done ∧
    (load_order_book okIdxEnv "wss://a" "ob:BTC/USDT" "BTC/USDT" 1 natSyncSt).1.fetches
      ≤ natSyncSt.fetches + okIdxEnv.maxRetries :=
  load_order_book_bounded_within_cycle okIdxEnv "wss://a" "ob:BTC/USDT" "BTC/USDT" 0
    natSyncSt (fun n => ⟨103, rfl⟩) (fun b d => ⟨d, rfl⟩) (by decide) (by decide)

/-- A `watch` call whose subscribe key is already recorded on the connection
reduces to the future lookup/creation: no deferred callback is registered
and the state is the `client_future` state. -/
theorem watch_sync_already_subscribed (hh : MessageHash) (mm ss : Option String)
    (k : SubKey) (st2 : WatchState)
    (hsub : (alookup st2.subscriptions (some k)).isSome = true) :
    watch_sync hh mm (some k) ss st2 =
      ((client_future st2 hh).1, (client_future st2 hh).2, none) := by
  unfold watch_sync
  rw [if_neg (by simp)]
  unfold watch_body
  simp only [client_future_subscriptions, hsub, if_true]

/-- A `watch` call whose subscribe key is new records it and registers the
deferred send callback. -/
theorem watch_sync_new_key (hh : MessageHash) (mm ss : Option String)
    (k : SubKey) (st : WatchState)
    (hk : alookup st.subscriptions (some k) = none) :
    watch_sync hh mm (some k) ss st =
      ((client_future st hh).1,
        { futures := (client_future st hh).2.futures
          futStates := (client_future st hh).2.futStates
          nextFut := (client_future st hh).2.nextFut
          subscriptions := aset (client_future st hh).2.subscriptions (some k)
            (sub_val ss)
          sent := (client_future st hh).2.sent },
        some ⟨some k, (client_future st hh).1, mm⟩) := by
  unfold watch_sync
  rw [if_neg (by simp)]
  unfold watch_body
  have hfalse : (alookup (client_future st hh).2.subscriptions (some k)).isSome = false := by
    rw [client_future_subscriptions, hk]
    rfl
  simp only [hfalse, if_false, Bool.false_eq_true]

/-- When the connect attempt and the send both succeed, the deferred
callback just writes the outgoing message to the transport. -/
theorem run_after_ok (env : WatchEnv) (st : WatchState) (key : Option SubKey)
    (fid : Nat) (m : String)
    (hconn : env.connectFailed = none) (hsend : env.sendFails = none) :
    run_after env st ⟨key, fid, some m⟩ = { st with sent := st.sent ++ [m] } := by
  unfold run_after
  simp only [hconn, hsend]

/-- C5: the subscribe message is sent at most once per subscribe key.  Once
the key is recorded in the subscriptions map of the connection, any watch call
with that key obtains its future without registering another send callback
and without sending; consequently two concurrent watch calls with the same
key — both synchronous parts running before either deferred send — send the
outgoing message exactly once. -/
theorem watch_sends_subscribe_once (env : WatchEnv)
    (h1 h2 : MessageHash) (m : String) (k : SubKey) (s1 s2 : Option String)
    (st : WatchState)
    (hk : alookup st.subscriptions (some k) = none)
    (hconn : env.connectFailed = none)
    (hsend : env.sendFails = none) :
    (∀ st2 : WatchState, (alookup st2.subscriptions (some k)).isSome = true →
        (watch_sync h2 (some m) (some k) s2 st2).2.2 = none ∧
        (watch_sync h2 (some m) (some k) s2 st2).2.1.sent = st2.sent) ∧
    (watch_run2_concurrent env h1 (some m) (some k) s1 h2 (some m) (some k) s2 st).sent
      = st.sent ++ [m] := by
  refine ⟨fun st2 hsub => ?_, ?_⟩
  · rw [watch_sync_already_subscribed h2 (some m) s2 k st2 hsub]
    exact ⟨rfl, client_future_sent st2 h2⟩
  · have e1 := watch_sync_new_key h1 (some m) s1 k st hk
    have hsub1 : (alookup
        ({ futures := (client_future st h1).2.futures
           futStates := (client_future st h1).2.futStates
           nextFut := (client_future st h1).2.nextFut
           subscriptions := aset (client_future st h1).2.subscriptions (some k)
             (sub_val s1)
           sent := (client_future st h1).2.sent } : WatchState).subscriptions
          (some k)).isSome = true := by
      show (alookup (aset (client_future st h1).2.subscriptions (some k)
        (sub_val s1)) (some k)).isSome = true
      rw [alookup_aset]
      rfl
    have e2 := watch_sync_already_subscribed h2 (some m) s2 k
      { futures := (client_future st h1).2.futures
        futStates := (client_future st h1).2.futStates
        nextFut := (client_future st h1).2.nextFut
        subscriptions := aset (client_future st h1).2.subscriptions (some k)
          (sub_val s1)
        sent := (client_future st h1).2.sent }
      hsub1
    unfold watch_run2_concurrent
    rw [e1]
    simp only []
    rw [e2]
    simp only []
    rw [run_after_ok env _ (some k) (client_future st h1).1 m hconn hsend]
    simp only [client_future_sent]

/-- Witness for C5: two concurrent watch calls with the same subscribe key
on a fresh connection send the subscribe message exactly once. -/
theorem watch_sends_subscribe_once_witness :
    (∀ st2 : WatchState,
        (alookup st2.subscriptions (some "sub:BTC/USDT")).isSome = true →
        (watch_sync "ticker:BTC/USDT" (some "SUBSCRIBE") (some "sub:BTC/USDT")
            (some "desc") st2).2.2 = none ∧
        (watch_sync "ticker:BTC/USDT" (some "SUBSCRIBE") (some "sub:BTC/USDT")
            (some "desc") st2).2.1.sent = st2.sent) ∧
    (watch_run2_concurrent wEnvOk
        "ticker:BTC/USDT" (some "SUBSCRIBE") (some "sub:BTC/USDT") (some "desc")
        "ticker:BTC/USDT" (some "SUBSCRIBE") (some "sub:BTC/USDT") (some "desc")
        wStEmpty).sent = wStEmpty.sent ++ ["SUBSCRIBE"] :=
  watch_sends_subscribe_once wEnvOk "ticker:BTC/USDT" "ticker:BTC/USDT" "SUBSCRIBE"
    "sub:BTC/USDT" (some "desc") (some "desc") wStEmpty (by decide) rfl rfl

/-- C6: when a watch call records a new subscribe key and the connection
open fails, or the subsequent send of the outgoing message fails, the
just-added key is removed from the subscriptions map of the connection (so a
later call can retry), the returned future is rejected with that failure,
and nothing is sent. -/
theorem watch_failure_removes_key_and_rejects (env : WatchEnv)
    (hash : MessageHash) (m : String) (k : SubKey) (ss : Option String)
    (st : WatchState) (e : String)
    (hfresh : alookup st.futures hash = none)
    (hnew : alookup st.subscriptions (some k) = none)
    (hfail : env.connectFailed = some e ∨
      (env.connectFailed = none ∧ env.sendFails = some e)) :
    alookup (watch_run env hash (some m) (some k) ss st).2.subscriptions (some k)
      = none ∧
    alookup (watch_run env hash (some m) (some k) ss st).2.futStates
        (watch_run env hash (some m) (some k) ss st).1 = some (.rejected e) ∧
    (watch_run env hash (some m) (some k) ss st).2.sent = st.sent := by
  have hcf : client_future st hash =
      (st.nextFut,
        { st with
          futures := aset st.futures hash st.nextFut
          futStates := aset st.futStates st.nextFut .pending
          nextFut := st.nextFut + 1 }) := by
    unfold client_future
    rw [hfresh]
  have e1 := watch_sync_new_key hash (some m) ss k st hnew
  simp only [hcf] at e1
  rcases hfail with hconn | ⟨hconn, hsend⟩
  · have hfs : alookup ((aset st.futStates st.nextFut FutStatus.pending).map
        (fun p => if p.2 = FutStatus.pending then (p.1, FutStatus.rejected e) else p))
        st.nextFut = some (FutStatus.rejected e) := by
      rw [alookup_reject_all, alookup_aset]
      rfl
    have hrun : watch_run env hash (some m) (some k) ss st =
        (st.nextFut,
          reject_future
            { futures := aset st.futures hash st.nextFut
              futStates := (aset st.futStates st.nextFut .pending).map
                (fun p => if p.2 = FutStatus.pending then (p.1, FutStatus.rejected e) else p)
              nextFut := st.nextFut + 1
              subscriptions := aremove (aset st.subscriptions (some k)
                (sub_val ss)) (some k)
              sent := st.sent }
            st.nextFut e) := by
      unfold watch_run
      rw [e1]
      simp only [run_after, hconn, reject_all_pending]
    have hrj : reject_future
        { futures := aset st.futures hash st.nextFut
          futStates := (aset st.futStates st.nextFut .pending).map
            (fun p => if p.2 = FutStatus.pending then (p.1, FutStatus.rejected e) else p)
          nextFut := st.nextFut + 1
          subscriptions := aremove (aset st.subscriptions (some k)
            (sub_val ss)) (some k)
          sent := st.sent }
        st.nextFut e =
        { futures := aset st.futures hash st.nextFut
          futStates := (aset st.futStates st.nextFut .pending).map
            (fun p => if p.2 = FutStatus.pending then (p.1, FutStatus.rejected e) else p)
          nextFut := st.nextFut + 1
          subscriptions := aremove (aset st.subscriptions (some k)
            (sub_val ss)) (some k)
          sent := st.sent } := by
      unfold reject_future
      rw [hfs]
    rw [hrun, hrj]
    exact ⟨alookup_aremove _ _, hfs, rfl⟩
  · have hfs : alookup (aset st.futStates st.nextFut FutStatus.pending) st.nextFut
        = some FutStatus.pending := alookup_aset _ _ _
    have hrun : watch_run env hash (some m) (some k) ss st =
        (st.nextFut,
          reject_future
            { futures := aset st.futures hash st.nextFut
              futStates := aset st.futStates st.nextFut .pending
              nextFut := st.nextFut + 1
              subscriptions := aremove (aset st.subscriptions (some k)
                (sub_val ss)) (some k)
              sent := st.sent }
            st.nextFut e) := by
      unfold watch_run
      rw [e1]
      simp only [run_after, hconn, hsend]
    have hrj : reject_future
        { futures := aset st.futures hash st.nextFut
          futStates := aset st.futStates st.nextFut .pending
          nextFut := st.nextFut + 1
          subscriptions := aremove (aset st.subscriptions (some k)
            (sub_val ss)) (some k)
          sent := st.sent }
        st.nextFut e =
        { futures := aset st.futures hash st.nextFut
          futStates := aset (aset st.futStates st.nextFut .pending) st.nextFut
            (.rejected e)
          nextFut := st.nextFut + 1
          subscriptions := aremove (aset st.subscriptions (some k)
            (sub_val ss)) (some k)
          sent := st.sent } := by
      unfold reject_future
      rw [hfs]
    rw [hrun, hrj]
    exact ⟨alookup_aremove _ _, alookup_aset _ _ _, rfl⟩

/-- Witness for C6: on a fresh connection whose `send` raises
`ConnectionError`, the watch call removes the just-added key, rejects the
returned future with the failure, and sends nothing. -/
theorem watch_failure_removes_key_and_rejects_witness :
    alookup (watch_run wEnvSendFail "ticker:BTC/USDT" (some "SUBSCRIBE")
        (some "sub:BTC/USDT") none wStEmpty).2.subscriptions
        (some "sub:BTC/USDT") = none ∧
    alookup (watch_run wEnvSendFail "ticker:BTC/USDT" (some "SUBSCRIBE")
        (some "sub:BTC/USDT") none wStEmpty).2.futStates
        (watch_run wEnvSendFail "ticker:BTC/USDT" (some "SUBSCRIBE")
          (some "sub:BTC/USDT") none wStEmpty).1
      = some (.rejected "connection reset") ∧
    (watch_run wEnvSendFail "ticker:BTC/USDT" (some "SUBSCRIBE")
        (some "sub:BTC/USDT") none wStEmpty).2.sent = wStEmpty.sent :=
  watch_failure_removes_key_and_rejects wEnvSendFail "ticker:BTC/USDT" "SUBSCRIBE"
    "sub:BTC/USDT" none wStEmpty "connection reset" rfl rfl (Or.inr ⟨rfl, rfl⟩)

end Ccxt
